import Mathlib

/-!
# Verification of the ROBOSTAAN blog/course application

Shallow embedding of the client-side data-access layer
(`src/context/AppContext.tsx`), the page handlers (`src/pages/Blogs.tsx`,
the signup page), the role-gated UI fragments
(`src/components/CourseCard/CourseCard.tsx`,
`src/components/Features/UserProfile.tsx`) and the SQL schema constraints
(`supabase/migrations/*.sql`), together with proofs of the spec's
testable properties.
-/

namespace Robostaan

/-- A row of the `blogs` table / the `Blog` interface in `lib/supabase.ts`. -/
structure Blog where
  id : String
  title : String
  content : String
  snippet : String
  image : String
  tags : List String
  author : String
  featured : Bool
  created_at : String
  updated_at : String
  deriving Repr, DecidableEq

/-- A row of the `courses` table / the `Course` interface in `lib/supabase.ts`. -/
structure Course where
  id : String
  title : String
  description : String
  content : String
  image : String
  duration : String
  category : String
  video_url : Option String
  materials : Option (List String)
  featured : Bool
  created_at : String
  updated_at : String
  deriving Repr, DecidableEq

/-- Backend errors are opaque to the client; only the message matters. -/
abbrev SupabaseError := String

/-! ## String utilities mirroring the JavaScript primitives used in the source -/

/-- JavaScript `String.prototype.toLowerCase` (per-character lowering). -/
def lowerStr (s : String) : String := String.mk (s.data.map Char.toLower)

/-- `needle.isPrefixOf hay` on character lists, by direct recursion. -/
def isPrefixList : List Char → List Char → Bool
  | [], _ => true
  | _ :: _, [] => false
  | a :: as, b :: bs => a == b && isPrefixList as bs

/-- Substring containment on character lists: some suffix of `hay`
starts with `needle`. -/
def containsSub (needle : List Char) : List Char → Bool
  | [] => isPrefixList needle []
  | c :: rest => isPrefixList needle (c :: rest) || containsSub needle rest

/-- JavaScript `hay.includes(pat)` (substring containment). -/
def stringIncludes (hay pat : String) : Bool :=
  containsSub pat.data hay.data

/-! ## Blogs page: search / tag filtering (`src/pages/Blogs.tsx`, `filteredBlogs`) -/

/-- `blog.title.toLowerCase().includes(searchTerm.toLowerCase()) ||
    blog.snippet.toLowerCase().includes(searchTerm.toLowerCase())`. -/
def matchesSearch (searchTerm : String) (b : Blog) : Bool :=
  stringIncludes (lowerStr b.title) (lowerStr searchTerm) ||
    stringIncludes (lowerStr b.snippet) (lowerStr searchTerm)

/-- `!selectedTag || blog.tags.includes(selectedTag)`; the empty string is
the only falsy value a `<select>` yields here. -/
def matchesTag (selectedTag : String) (b : Blog) : Bool :=
  selectedTag == "" || b.tags.contains selectedTag

/-- `blogs.filter(blog => matchesSearch && matchesTag)`. -/
def filteredBlogs (blogs : List Blog) (searchTerm selectedTag : String) : List Blog :=
  blogs.filter (fun b => matchesSearch searchTerm b && matchesTag selectedTag b)

/-! ## Role-gated UI fragments -/

/-- Modelled from the spec: the `AuthProvider` component (not in the sources
at hand) derives `isAdmin` from the authenticated profile; per the spec,
"The authorization check is a single role-string comparison" against the
`role` column (`role ∈ {user, admin, instructor}`). -/
def isAdmin (role : String) : Bool := role == "admin"

/-- The interactive elements the three gated components can render. -/
inductive UIElem where
  | image (src : String)
  | featuredBadge
  | categoryBadge (category : String)
  | editCourseButton
  | deleteCourseButton
  | courseTitle (t : String)
  | courseDescription (d : String)
  | viewCourseButton
  | searchInput
  | tagSelect
  | addBlogButton
  | profileSettingsLink
  | myCoursesLink
  | bookmarksLink
  | adminPanelLink
  | signOutButton
  deriving Repr, DecidableEq

/-- The render of `CourseCard` (`CourseCard.tsx`): image, conditional
featured badge, category badge, admin-only edit/delete buttons, title,
description, view button. -/
def courseCardRender (isAdm : Bool) (c : Course) : List UIElem :=
  [UIElem.image c.image] ++
    (if c.featured then [UIElem.featuredBadge] else []) ++
    [UIElem.categoryBadge c.category] ++
    (if isAdm then [UIElem.editCourseButton, UIElem.deleteCourseButton] else []) ++
    [UIElem.courseTitle c.title, UIElem.courseDescription c.description,
      UIElem.viewCourseButton]

/-- The search/filter control row of the blogs page (`Blogs.tsx`):
search box, tag select, admin-only Add Blog button. -/
def blogsPageControls (isAdm : Bool) : List UIElem :=
  [UIElem.searchInput, UIElem.tagSelect] ++
    (if isAdm then [UIElem.addBlogButton] else [])

/-- The dropdown menu of `UserProfile` (`UserProfile.tsx`): rendered only
while open; the Admin Panel link is admin-only. -/
def userProfileMenu (isOpen isAdm : Bool) : List UIElem :=
  if isOpen then
    [UIElem.profileSettingsLink, UIElem.myCoursesLink, UIElem.bookmarksLink] ++
      (if isAdm then [UIElem.adminPanelLink] else []) ++
      [UIElem.signOutButton]
  else []

/-! ## The data-access context (`src/context/AppContext.tsx`)

Each operation awaits exactly one backend response, embedded here as an
explicit `Except` argument.  On success the corresponding `setState`
updater runs; on failure the error is logged and rethrown before any
state update, so the returned state is the input state.  The result pair
is (new state, rethrown error if any). -/

/-- The in-memory state held by `AppProvider`: the cached lists. -/
structure AppState where
  blogs : List Blog
  courses : List Course
  deriving Repr, DecidableEq

/-- `addBlog`: `insert([blog]).select().single()`; on success
`setBlogs(prev => [data, ...prev])`, on error rethrow. -/
def addBlog (s : AppState) (res : Except SupabaseError Blog) :
    AppState × Option SupabaseError :=
  match res with
  | Except.ok data => ({ s with blogs := data :: s.blogs }, none)
  | Except.error e => (s, some e)

/-- `updateBlog`: on success `setBlogs(prev => prev.map(blog =>
blog.id === id ? data : blog))`, on error rethrow. -/
def updateBlog (s : AppState) (id : String) (res : Except SupabaseError Blog) :
    AppState × Option SupabaseError :=
  match res with
  | Except.ok data =>
      ({ s with blogs := s.blogs.map fun b => if b.id == id then data else b }, none)
  | Except.error e => (s, some e)

/-- `deleteBlog`: on success `setBlogs(prev => prev.filter(blog =>
blog.id !== id))`, on error rethrow. -/
def deleteBlog (s : AppState) (id : String) (res : Except SupabaseError Unit) :
    AppState × Option SupabaseError :=
  match res with
  | Except.ok _ => ({ s with blogs := s.blogs.filter fun b => b.id != id }, none)
  | Except.error e => (s, some e)

/-- `addCourse`: on success `setCourses(prev => [data, ...prev])`,
on error rethrow. -/
def addCourse (s : AppState) (res : Except SupabaseError Course) :
    AppState × Option SupabaseError :=
  match res with
  | Except.ok data => ({ s with courses := data :: s.courses }, none)
  | Except.error e => (s, some e)

/-- `updateCourse`: on success `setCourses(prev => prev.map(course =>
course.id === id ? data : course))`, on error rethrow. -/
def updateCourse (s : AppState) (id : String) (res : Except SupabaseError Course) :
    AppState × Option SupabaseError :=
  match res with
  | Except.ok data =>
      ({ s with courses := s.courses.map fun c => if c.id == id then data else c }, none)
  | Except.error e => (s, some e)

/-- `deleteCourse`: on success `setCourses(prev => prev.filter(course =>
course.id !== id))`, on error rethrow. -/
def deleteCourse (s : AppState) (id : String) (res : Except SupabaseError Unit) :
    AppState × Option SupabaseError :=
  match res with
  | Except.ok _ => ({ s with courses := s.courses.filter fun c => c.id != id }, none)
  | Except.error e => (s, some e)

/-! ## SQL schema constraints (`supabase/migrations/*.sql`)

The tables are embedded as lists of rows; an insert or update is admitted
only if the schema's constraints hold for the written rows, mirroring the
`CHECK` and `UNIQUE` clauses. -/

/-- A row of `course_enrollments`. -/
structure Enrollment where
  id : String
  user_id : String
  course_id : String
  enrolled_at : String
  progress : Int
  completed_at : Option String
  deriving Repr, DecidableEq

/-- The column constraint `CHECK (progress >= 0 AND progress <= 100)`. -/
def enrollmentProgressCheck (p : Int) : Bool :=
  decide (0 ≤ p) && decide (p ≤ 100)

/-- `INSERT` into `course_enrollments`: rejected if it collides with
`UNIQUE(user_id, course_id)` or violates the progress `CHECK`. -/
def insertEnrollment (t : List Enrollment) (e : Enrollment) :
    Option (List Enrollment) :=
  if t.any fun r => r.user_id == e.user_id && r.course_id == e.course_id then none
  else if enrollmentProgressCheck e.progress then some (t ++ [e])
  else none

/-- `UPDATE course_enrollments SET progress = p WHERE user_id AND course_id`:
the `CHECK` is re-evaluated against the new value; a violating update is
rejected, not adjusted. -/
def updateEnrollmentProgress (t : List Enrollment) (uid cid : String) (p : Int) :
    Option (List Enrollment) :=
  if enrollmentProgressCheck p then
    some (t.map fun r =>
      if r.user_id == uid && r.course_id == cid then { r with progress := p } else r)
  else none

/-- Modelled from the spec's words ("progress values are clamped to
[0,100]", "any attempted write of a progress value outside that range is
clamped"), for comparison with the schema's `CHECK` semantics: stores the
row after clamping its progress into [0,100]. -/
def insertEnrollment_claimed (t : List Enrollment) (e : Enrollment) :
    Option (List Enrollment) :=
  some (t ++ [{ e with progress := max 0 (min 100 e.progress) }])

/-- The enrollment tables reachable from empty by admitted writes. -/
inductive EnrollmentsReachable : List Enrollment → Prop where
  | empty : EnrollmentsReachable []
  | insert {t e t'} : EnrollmentsReachable t → insertEnrollment t e = some t' →
      EnrollmentsReachable t'
  | update {t uid cid p t'} : EnrollmentsReachable t →
      updateEnrollmentProgress t uid cid p = some t' → EnrollmentsReachable t'

/-- A row of `comments`. -/
structure CommentRow where
  id : String
  user_id : String
  blog_id : Option String
  course_id : Option String
  content : String
  parent_id : Option String
  created_at : String
  updated_at : String
  deriving Repr, DecidableEq

/-- The table constraint `CHECK ((blog_id IS NOT NULL AND course_id IS NULL)
OR (blog_id IS NULL AND course_id IS NOT NULL))`. -/
def commentTargetCheck (blog_id course_id : Option String) : Bool :=
  (blog_id.isSome && course_id.isNone) || (blog_id.isNone && course_id.isSome)

/-- `INSERT` into `comments`: rejected unless the target `CHECK` holds. -/
def insertComment (t : List CommentRow) (c : CommentRow) :
    Option (List CommentRow) :=
  if commentTargetCheck c.blog_id c.course_id then some (t ++ [c]) else none

/-- `UPDATE comments SET content = ... WHERE id = ...`: the `CHECK` is
re-evaluated on each updated row (whose target columns are unchanged). -/
def updateCommentContent (t : List CommentRow) (id content : String) :
    Option (List CommentRow) :=
  if t.all fun r => !(r.id == id) || commentTargetCheck r.blog_id r.course_id then
    some (t.map fun r => if r.id == id then { r with content := content } else r)
  else none

/-- The comments tables reachable from empty by admitted writes. -/
inductive CommentsReachable : List CommentRow → Prop where
  | empty : CommentsReachable []
  | insert {t c t'} : CommentsReachable t → insertComment t c = some t' →
      CommentsReachable t'
  | update {t id content t'} : CommentsReachable t →
      updateCommentContent t id content = some t' → CommentsReachable t'

/-! ## Create/update payloads and server-side timestamp defaults -/

/-- The client insert payload `Omit<Blog, 'id' | 'created_at' | 'updated_at'>`:
the type carries no id and no timestamp fields at all. -/
structure BlogInsert where
  title : String
  content : String
  snippet : String
  image : String
  tags : List String
  author : String
  featured : Bool
  deriving Repr, DecidableEq

/-- `Partial<Blog>`: every column optional. -/
structure BlogPatch where
  title : Option String
  content : Option String
  snippet : Option String
  image : Option String
  tags : Option (List String)
  author : Option String
  featured : Option Bool
  created_at : Option String
  updated_at : Option String
  deriving Repr, DecidableEq

/-- The empty `Partial<Blog>`. -/
def emptyBlogPatch : BlogPatch :=
  ⟨none, none, none, none, none, none, none, none, none⟩

/-- The payload `updateBlog` sends:
`{ ...updatedBlog, updated_at: new Date().toISOString() }` — the client's
current time is written into `updated_at`. -/
def updateBlogPayload (patch : BlogPatch) (clientNow : String) : BlogPatch :=
  { patch with updated_at := some clientNow }

/-- Server semantics of `INSERT` into `blogs`: `id DEFAULT
gen_random_uuid()`, `created_at`/`updated_at DEFAULT now()`. -/
def serverInsertBlog (p : BlogInsert) (serverId serverNow : String) : Blog :=
  ⟨serverId, p.title, p.content, p.snippet, p.image, p.tags, p.author,
    p.featured, serverNow, serverNow⟩

/-- The client insert payload
`Omit<Course, 'id' | 'created_at' | 'updated_at'>`. -/
structure CourseInsert where
  title : String
  description : String
  content : String
  image : String
  duration : String
  category : String
  video_url : Option String
  materials : Option (List String)
  featured : Bool
  deriving Repr, DecidableEq

/-- `Partial<Course>`: every column optional. -/
structure CoursePatch where
  title : Option String
  description : Option String
  content : Option String
  image : Option String
  duration : Option String
  category : Option String
  video_url : Option String
  materials : Option (List String)
  featured : Option Bool
  created_at : Option String
  updated_at : Option String
  deriving Repr, DecidableEq

/-- The empty `Partial<Course>`. -/
def emptyCoursePatch : CoursePatch :=
  ⟨none, none, none, none, none, none, none, none, none, none, none⟩

/-- The payload `updateCourse` sends:
`{ ...updatedCourse, updated_at: new Date().toISOString() }`. -/
def updateCoursePayload (patch : CoursePatch) (clientNow : String) : CoursePatch :=
  { patch with updated_at := some clientNow }

/-- Server semantics of `INSERT` into `courses`: id and timestamps from
column defaults. -/
def serverInsertCourse (p : CourseInsert) (serverId serverNow : String) : Course :=
  ⟨serverId, p.title, p.description, p.content, p.image, p.duration,
    p.category, p.video_url, p.materials, p.featured, serverNow, serverNow⟩

/-! ## Page handlers and their observable effects -/

/-- The observable side effects of the handlers: `console.error` lines and
`window.alert` messages. -/
inductive Effect where
  | log (msg : String)
  | alert (msg : String)
  deriving Repr, DecidableEq

/-- `handleSubmit` on the blogs page: awaits a single `updateBlog`
(when editing) or `addBlog` call.  On failure the context logs and
rethrows, and the page handler logs and alerts a generic message.  The
second component is the number of backend requests issued; the handler
never retries. -/
def blogsHandleSubmit (editing : Option Blog) (res : Except SupabaseError Blog) :
    List Effect × Nat :=
  match res with
  | Except.error _ =>
      (Effect.log (match editing with
          | none => "Error adding blog:"
          | some _ => "Error updating blog:") ::
        [Effect.log "Error saving blog:",
          Effect.alert "Error saving blog. Please try again."], 1)
  | Except.ok _ => ([], 1)

/-- `handleDelete` on the blogs page: after `window.confirm`, awaits a
single `deleteBlog` call; the context and the page each log, then the page
alerts a generic message.  No request is made without confirmation, and no
request is ever retried. -/
def blogsHandleDelete (confirmed : Bool) (res : Except SupabaseError Unit) :
    List Effect × Nat :=
  if confirmed then
    match res with
    | Except.error _ =>
        ([Effect.log "Error deleting blog:", Effect.log "Error deleting blog:",
          Effect.alert "Error deleting blog. Please try again."], 1)
    | Except.ok _ => ([], 1)
  else ([], 0)

/-- Modelled from the spec: the page hosting the course add/update call
sites is not among the sources at hand; per the spec, backend errors "are
caught at the call site, logged, and surfaced as a generic user-facing
message"; "there is no retry". -/
def coursesHandleSubmit (editing : Option Course) (res : Except SupabaseError Course) :
    List Effect × Nat :=
  match res with
  | Except.error _ =>
      (Effect.log (match editing with
          | none => "Error adding course:"
          | some _ => "Error updating course:") ::
        [Effect.log "Error saving course:",
          Effect.alert "Error saving course. Please try again."], 1)
  | Except.ok _ => ([], 1)

/-- Modelled from the spec: the course delete call site is not among the
sources at hand; per the spec, errors are caught, logged and surfaced as a
generic message, with no retry. -/
def coursesHandleDelete (confirmed : Bool) (res : Except SupabaseError Unit) :
    List Effect × Nat :=
  if confirmed then
    match res with
    | Except.error _ =>
        ([Effect.log "Error deleting course:", Effect.log "Error deleting course:",
          Effect.alert "Error deleting course. Please try again."], 1)
    | Except.ok _ => ([], 1)
  else ([], 0)

/-! ## Signup page (`Signup.tsx`) -/

/-- The signup form state. -/
structure SignupForm where
  email : String
  password : String
  confirmPassword : String
  fullName : String
  role : String
  deriving Repr, DecidableEq

/-- `const ADMIN_SECRET = 'robostaan_admin_2024'`. -/
def ADMIN_SECRET : String := "robostaan_admin_2024"

/-- The outcome of the validation phase of `handleSubmit`: either an error
is set and the handler returns before any network request, or the
`supabase.auth.signUp` request is issued with these fields. -/
inductive SignupStep where
  | validationError (msg : String)
  | signUpRequest (email password fullName role : String)
  deriving Repr, DecidableEq

/-- The validation sequence of the signup `handleSubmit`, in source order:
password match, password length, admin secret key. -/
def signupHandleSubmit (f : SignupForm) (adminSecretKey : String) : SignupStep :=
  if f.password != f.confirmPassword then
    SignupStep.validationError "Passwords do not match"
  else if f.password.length < 6 then
    SignupStep.validationError "Password must be at least 6 characters long"
  else if f.role == "admin" && adminSecretKey != ADMIN_SECRET then
    SignupStep.validationError "Invalid admin secret key"
  else
    SignupStep.signUpRequest f.email f.password f.fullName f.role

/-- Sample records used to instantiate theorems with hypotheses. -/
def bSample : Blog :=
  ⟨"b1", "Title", "Content", "Snippet", "img", ["Robotics"], "Author", false, "t0", "t0"⟩

def bSample2 : Blog :=
  ⟨"b2", "Other", "Content2", "Snippet2", "img2", [], "Author2", true, "t1", "t1"⟩

def cSample : Course :=
  ⟨"c1", "Intro", "Desc", "", "img", "8 weeks", "Beginner", none, none, true, "t0", "t0"⟩

def cSample2 : Course :=
  ⟨"c2", "Adv", "Desc2", "", "img2", "12 weeks", "Advanced", none, none, false, "t1", "t1"⟩

def eOver : Enrollment := ⟨"e1", "u1", "c1", "t0", 150, none⟩

def eOk : Enrollment := ⟨"e2", "u2", "c2", "t0", 50, none⟩

def commentOnBlog : CommentRow := ⟨"m1", "u1", some "b1", none, "hi", none, "t0", "t0"⟩

def signupAdminForm : SignupForm := ⟨"a@b.c", "abcdef", "abcdef", "Alex", "admin"⟩

def signupMismatchForm : SignupForm := ⟨"a@b.c", "abcdef", "abcdeg", "Alex", "admin"⟩

end Robostaan

namespace Robostaan

/-! ## Theorems -/

/-- C10: the blogs page's filtered list contains exactly the blogs whose
title or snippet contains the search term case-insensitively (every blog
matches the empty search) and, when a tag is selected, whose tag list
includes it; the order of the blogs list is preserved. -/
theorem filteredBlogs_correct (blogs : List Blog) (s t : String) :
    (∀ b : Blog, b ∈ filteredBlogs blogs s t ↔
      b ∈ blogs ∧ matchesSearch s b = true ∧ matchesTag t b = true) ∧
    (∀ b : Blog, matchesSearch "" b = true) ∧
    List.Sublist (filteredBlogs blogs s t) blogs := by
  refine ⟨fun b => ?_, fun b => ?_, List.filter_sublist _⟩
  · simp [filteredBlogs, List.mem_filter, Bool.and_eq_true, and_assoc]
  · have hempty : ∀ l : List Char, containsSub [] l = true := by
      intro l
      cases l with
      | nil => rfl
      | cons c rest => simp [containsSub, isPrefixList]
    have h0 : lowerStr "" = "" := rfl
    simp [matchesSearch, stringIncludes, h0, hempty]

/-- C1: whenever the authenticated profile's role is not `admin`, the
single role-string comparison yields `isAdmin = false`, and none of the
admin-only controls (Add Blog button, course edit/delete buttons, Admin
Panel link) occur in the rendered output. -/
theorem nonAdmin_sees_no_admin_controls (role : String) (hrole : role ≠ "admin") :
    isAdmin role = false ∧
    (∀ c : Course, UIElem.editCourseButton ∉ courseCardRender (isAdmin role) c ∧
      UIElem.deleteCourseButton ∉ courseCardRender (isAdmin role) c) ∧
    UIElem.addBlogButton ∉ blogsPageControls (isAdmin role) ∧
    (∀ isOpen : Bool, UIElem.adminPanelLink ∉ userProfileMenu isOpen (isAdmin role)) := by
  have hfalse : isAdmin role = false := by
    simp [isAdmin]
    exact hrole
  refine ⟨hfalse, fun c => ?_, ?_, fun isOpen => ?_⟩
  · rw [hfalse]
    constructor <;>
      · intro hmem
        simp [courseCardRender] at hmem
  · rw [hfalse]
    intro hmem
    simp [blogsPageControls] at hmem
  · rw [hfalse]
    intro hmem
    cases isOpen <;> simp [userProfileMenu] at hmem

/-- C3: if `addBlog` completes without error, the blogs list subsequently
held by the context includes the server-returned created blog, and every
blog previously in the list is still in it. -/
theorem addBlog_includes_created (s s' : AppState) (res : Except SupabaseError Blog)
    (h : addBlog s res = (s', none)) :
    (∃ d, res = Except.ok d ∧ d ∈ s'.blogs) ∧ ∀ b ∈ s.blogs, b ∈ s'.blogs := by
  cases res with
  | error e => simp [addBlog] at h
  | ok data =>
      have hs : s' = { s with blogs := data :: s.blogs } := by
        simpa [addBlog] using congrArg Prod.fst h.symm
      subst hs
      exact ⟨⟨data, rfl, List.mem_cons_self _ _⟩, fun b hb => List.mem_cons_of_mem _ hb⟩

/-- Witness for C3 at a concrete state and server row. -/
theorem addBlog_includes_created_witness :
    (∃ d, (Except.ok bSample : Except SupabaseError Blog) = Except.ok d ∧
        d ∈ (addBlog ⟨[bSample2], []⟩ (Except.ok bSample)).1.blogs) ∧
    ∀ b ∈ (⟨[bSample2], []⟩ : AppState).blogs,
      b ∈ (addBlog ⟨[bSample2], []⟩ (Except.ok bSample)).1.blogs :=
  addBlog_includes_created ⟨[bSample2], []⟩ _ (Except.ok bSample) rfl

/-- C4: if `deleteCourse` on an id completes without error, no course with
that id remains in the courses list, and every course with a different id
that was in the list is still in it unchanged. -/
theorem deleteCourse_removes (s s' : AppState) (id : String)
    (res : Except SupabaseError Unit) (h : deleteCourse s id res = (s', none)) :
    (∀ c ∈ s'.courses, c.id ≠ id) ∧ ∀ c ∈ s.courses, c.id ≠ id → c ∈ s'.courses := by
  cases res with
  | error e => simp [deleteCourse] at h
  | ok _ =>
      have hs : s' = { s with courses := s.courses.filter fun c => c.id != id } := by
        simpa [deleteCourse] using congrArg Prod.fst h.symm
      subst hs
      constructor
      · intro c hc
        have := List.of_mem_filter hc
        simpa using this
      · intro c hc hne
        exact List.mem_filter.mpr ⟨hc, by simpa using hne⟩

/-- Witness for C4 at a concrete state and id. -/
theorem deleteCourse_removes_witness :
    (∀ c ∈ (deleteCourse ⟨[], [cSample, cSample2]⟩ "c1" (Except.ok ())).1.courses,
      c.id ≠ "c1") ∧
    ∀ c ∈ (⟨[], [cSample, cSample2]⟩ : AppState).courses,
      c.id ≠ "c1" →
        c ∈ (deleteCourse ⟨[], [cSample, cSample2]⟩ "c1" (Except.ok ())).1.courses :=
  deleteCourse_removes ⟨[], [cSample, cSample2]⟩ _ "c1" (Except.ok ()) rfl

/-- C8: every context mutation whose backend call fails rethrows the error
and leaves the cached blogs and courses lists exactly as they were: no
partial mutation on failure. -/
theorem failed_ops_leave_state_unchanged (s : AppState) (e : SupabaseError) (id : String) :
    addBlog s (Except.error e) = (s, some e) ∧
    updateBlog s id (Except.error e) = (s, some e) ∧
    deleteBlog s id (Except.error e) = (s, some e) ∧
    addCourse s (Except.error e) = (s, some e) ∧
    updateCourse s id (Except.error e) = (s, some e) ∧
    deleteCourse s id (Except.error e) = (s, some e) :=
  ⟨rfl, rfl, rfl, rfl, rfl, rfl⟩

/-- C2 counterexample: a write with progress 150 is rejected by the
`CHECK` constraint (the insert fails), not clamped to 100 as the claim's
clamping reading would store it. -/
theorem progress_write_not_clamped :
    insertEnrollment [] eOver = none ∧
    insertEnrollment_claimed [] eOver = some [{ eOver with progress := 100 }] ∧
    insertEnrollment [] eOver ≠ insertEnrollment_claimed [] eOver := by
  refine ⟨by decide, by decide, by decide⟩

/-- C2 (amended): every enrollment table reachable by admitted inserts and
progress updates has all progress values in [0,100]; an out-of-range write
is rejected by the `CHECK` constraint, so a stored enrollment never has
progress < 0 or > 100. -/
theorem enrollment_progress_in_range (t : List Enrollment)
    (h : EnrollmentsReachable t) : ∀ r ∈ t, 0 ≤ r.progress ∧ r.progress ≤ 100 := by
  induction h with
  | empty => simp
  | @insert t e t' _ hins ih =>
      unfold insertEnrollment at hins
      split at hins
      · exact Option.noConfusion hins
      · split at hins
        · rename_i hchk
          cases hins
          intro r hr
          rcases List.mem_append.mp hr with hr | hr
          · exact ih r hr
          · rcases List.mem_singleton.mp hr with rfl
            simp only [enrollmentProgressCheck, Bool.and_eq_true, decide_eq_true_eq] at hchk
            exact hchk
        · exact Option.noConfusion hins
  | @update t uid cid p t' _ hupd ih =>
      unfold updateEnrollmentProgress at hupd
      split at hupd
      · rename_i hchk
        cases hupd
        intro r hr
        rcases List.mem_map.mp hr with ⟨r₀, hr₀, hmap⟩
        simp only [enrollmentProgressCheck, Bool.and_eq_true, decide_eq_true_eq] at hchk
        by_cases hcond : (r₀.user_id == uid && r₀.course_id == cid) = true
        · rw [hcond] at hmap
          simp only [if_true] at hmap
          subst hmap
          exact hchk
        · rw [Bool.not_eq_true] at hcond
          rw [hcond] at hmap
          simp at hmap
          subst hmap
          exact ih r₀ hr₀
      · exact Option.noConfusion hupd

/-- Witness for the amended C2 at a table built by one admitted insert. -/
theorem enrollment_progress_in_range_witness :
    0 ≤ eOk.progress ∧ eOk.progress ≤ 100 :=
  enrollment_progress_in_range [eOk]
    (@EnrollmentsReachable.insert [] eOk [eOk] EnrollmentsReachable.empty (by decide))
    eOk (by simp)

/-- C5 counterexample: the update payload built by `updateBlog` (and by
`updateCourse`) carries a client-supplied `updated_at` — the client's
current time — so the updated-at timestamp of an update is not
server-assigned. -/
theorem update_payload_carries_client_timestamp :
    (updateBlogPayload emptyBlogPatch "2024-01-01T00:00:00.000Z").updated_at
        = some "2024-01-01T00:00:00.000Z" ∧
    (updateCoursePayload emptyCoursePatch "2024-01-01T00:00:00.000Z").updated_at
        = some "2024-01-01T00:00:00.000Z" ∧
    (updateBlogPayload emptyBlogPatch "2024-01-01T00:00:00.000Z").updated_at ≠ none :=
  ⟨rfl, rfl, by simp [updateBlogPayload]⟩

/-- C5 (amended): on create the client payload carries no id or timestamps
and the server's column defaults assign `created_at` and `updated_at`; on
update the client itself supplies `updated_at` (its current time) in the
payload, while `created_at` is whatever the patch held (none at the call
sites). -/
theorem timestamps_on_create_and_update (p : BlogInsert) (q : CourseInsert)
    (sid snow : String) (patch : BlogPatch) (cpatch : CoursePatch) (cnow : String) :
    (serverInsertBlog p sid snow).created_at = snow ∧
    (serverInsertBlog p sid snow).updated_at = snow ∧
    (serverInsertBlog p sid snow).id = sid ∧
    (serverInsertCourse q sid snow).created_at = snow ∧
    (serverInsertCourse q sid snow).updated_at = snow ∧
    (serverInsertCourse q sid snow).id = sid ∧
    (updateBlogPayload patch cnow).updated_at = some cnow ∧
    (updateBlogPayload patch cnow).created_at = patch.created_at ∧
    (updateCoursePayload cpatch cnow).updated_at = some cnow ∧
    (updateCoursePayload cpatch cnow).created_at = cpatch.created_at :=
  ⟨rfl, rfl, rfl, rfl, rfl, rfl, rfl, rfl, rfl, rfl⟩

/-- C6: every comments table reachable by admitted inserts and content
updates has, in every row, exactly one of `blog_id` and `course_id`
non-null; a row referencing both or neither is never stored. -/
theorem comment_references_exactly_one (t : List CommentRow)
    (h : CommentsReachable t) :
    ∀ r ∈ t, (r.blog_id.isSome ∧ r.course_id = none) ∨
      (r.blog_id = none ∧ r.course_id.isSome) := by
  induction h with
  | empty => simp
  | @insert t c t' _ hins ih =>
      unfold insertComment at hins
      split at hins
      · rename_i hchk
        cases hins
        intro r hr
        rcases List.mem_append.mp hr with hr | hr
        · exact ih r hr
        · rcases List.mem_singleton.mp hr with rfl
          cases hb : r.blog_id with
          | none =>
              cases hc : r.course_id with
              | none => simp [commentTargetCheck, hb, hc] at hchk
              | some b => exact Or.inr ⟨rfl, by simp⟩
          | some a =>
              cases hc : r.course_id with
              | none => exact Or.inl ⟨by simp, rfl⟩
              | some b => simp [commentTargetCheck, hb, hc] at hchk
      · exact Option.noConfusion hins
  | @update t id content t' _ hupd ih =>
      unfold updateCommentContent at hupd
      split at hupd
      · cases hupd
        intro r hr
        rcases List.mem_map.mp hr with ⟨r₀, hr₀, hmap⟩
        have h₀ := ih r₀ hr₀
        by_cases hcond : (r₀.id == id) = true
        · rw [hcond] at hmap
          simp only [if_true] at hmap
          subst hmap
          exact h₀
        · rw [Bool.not_eq_true] at hcond
          rw [hcond] at hmap
          simp at hmap
          subst hmap
          exact h₀
      · exact Option.noConfusion hupd

/-- Witness for C6 at a table built by one admitted insert. -/
theorem comment_references_exactly_one_witness :
    (commentOnBlog.blog_id.isSome ∧ commentOnBlog.course_id = none) ∨
      (commentOnBlog.blog_id = none ∧ commentOnBlog.course_id.isSome) :=
  comment_references_exactly_one [commentOnBlog]
    (@CommentsReachable.insert [] commentOnBlog [commentOnBlog]
      CommentsReachable.empty (by decide))
    commentOnBlog (by simp)

/-- C7: when the backend call of a blog or course add/update/delete fails,
the handler logs the error, alerts a generic user-facing message, and the
single backend request is not retried (exactly one request is issued). -/
theorem backend_errors_logged_alerted_not_retried (e : SupabaseError)
    (editingB : Option Blog) (editingC : Option Course) :
    ((∃ m, Effect.log m ∈ (blogsHandleSubmit editingB (Except.error e)).1) ∧
      Effect.alert "Error saving blog. Please try again."
          ∈ (blogsHandleSubmit editingB (Except.error e)).1 ∧
      (blogsHandleSubmit editingB (Except.error e)).2 = 1) ∧
    ((∃ m, Effect.log m ∈ (blogsHandleDelete true (Except.error e)).1) ∧
      Effect.alert "Error deleting blog. Please try again."
          ∈ (blogsHandleDelete true (Except.error e)).1 ∧
      (blogsHandleDelete true (Except.error e)).2 = 1) ∧
    ((∃ m, Effect.log m ∈ (coursesHandleSubmit editingC (Except.error e)).1) ∧
      Effect.alert "Error saving course. Please try again."
          ∈ (coursesHandleSubmit editingC (Except.error e)).1 ∧
      (coursesHandleSubmit editingC (Except.error e)).2 = 1) ∧
    ((∃ m, Effect.log m ∈ (coursesHandleDelete true (Except.error e)).1) ∧
      Effect.alert "Error deleting course. Please try again."
          ∈ (coursesHandleDelete true (Except.error e)).1 ∧
      (coursesHandleDelete true (Except.error e)).2 = 1) := by
  refine ⟨⟨⟨"Error saving blog:", ?_⟩, ?_, rfl⟩,
      ⟨⟨"Error deleting blog:", ?_⟩, ?_, rfl⟩,
      ⟨⟨"Error saving course:", ?_⟩, ?_, rfl⟩,
      ⟨⟨"Error deleting course:", ?_⟩, ?_, rfl⟩⟩ <;>
    simp [blogsHandleSubmit, blogsHandleDelete, coursesHandleSubmit, coursesHandleDelete]

/-- C9 counterexample: a submission with role `admin` and a wrong secret
key, but mismatched passwords, sets the error `Passwords do not match` —
not `Invalid admin secret key` — so the claimed error is not set for every
wrong-key admin submission. -/
theorem signup_wrong_key_error_counterexample :
    signupHandleSubmit signupMismatchForm "wrong"
        = SignupStep.validationError "Passwords do not match" ∧
    signupHandleSubmit signupMismatchForm "wrong"
        ≠ SignupStep.validationError "Invalid admin secret key" := by
  refine ⟨by decide, by decide⟩

/-- C9 (amended): for a submission passing the earlier password
validations (passwords match, length ≥ 6) with role `admin` and a secret
key different from `robostaan_admin_2024`, the handler sets the error
`Invalid admin secret key` and returns before any sign-up or
profile-creation request; and in general the sign-up request is issued
only when the key matches or the chosen role is not `admin`. -/
theorem signup_admin_secret_gate (f : SignupForm) (key : String)
    (hpw : f.password = f.confirmPassword) (hlen : ¬ f.password.length < 6)
    (hrole : f.role = "admin") (hkey : key ≠ ADMIN_SECRET) :
    signupHandleSubmit f key = SignupStep.validationError "Invalid admin secret key" ∧
    ∀ (g : SignupForm) (k e pw n r : String),
      signupHandleSubmit g k = SignupStep.signUpRequest e pw n r →
        g.role = "admin" → k = ADMIN_SECRET := by
  constructor
  · have hlen2 : ¬ f.confirmPassword.length < 6 := by
      rw [← hpw]
      exact hlen
    simp [signupHandleSubmit, hpw, hrole, hkey, hlen, hlen2]
  · intro g k e pw n r hreq hrole'
    unfold signupHandleSubmit at hreq
    split at hreq
    · exact absurd hreq (by simp)
    · split at hreq
      · exact absurd hreq (by simp)
      · split at hreq
        · exact absurd hreq (by simp)
        · rename_i hgate
          simp only [Bool.and_eq_true, bne_iff_ne, ne_eq, beq_iff_eq, not_and,
            not_not] at hgate
          exact hgate hrole'

/-- Witness for the amended C9 at a concrete valid-password admin form
with a wrong key. -/
theorem signup_admin_secret_gate_witness :
    signupHandleSubmit signupAdminForm "wrong"
        = SignupStep.validationError "Invalid admin secret key" ∧
    ∀ (g : SignupForm) (k e pw n r : String),
      signupHandleSubmit g k = SignupStep.signUpRequest e pw n r →
        g.role = "admin" → k = ADMIN_SECRET :=
  signup_admin_secret_gate signupAdminForm "wrong" (by decide) (by decide)
    (by decide) (by decide)

/-- Witness for C1 at the concrete role `user`. -/
theorem nonAdmin_sees_no_admin_controls_witness :
    isAdmin "user" = false ∧
    (∀ c : Course, UIElem.editCourseButton ∉ courseCardRender (isAdmin "user") c ∧
      UIElem.deleteCourseButton ∉ courseCardRender (isAdmin "user") c) ∧
    UIElem.addBlogButton ∉ blogsPageControls (isAdmin "user") ∧
    (∀ isOpen : Bool, UIElem.adminPanelLink ∉ userProfileMenu isOpen (isAdmin "user")) :=
  nonAdmin_sees_no_admin_controls "user" (by decide)

end Robostaan
